import Mathlib

/-!
Shallow embedding of the STM32F4 RCC / SysTick / USART configuration library
(`rcc_aj_stm32f4.c` and `usart_aj_stm32f4.c`), together with theorems checking
the natural-language specification against it.

Machine integers are modelled as `Nat`; every register write in the source is a
`|=` or `&=` read-modify-write (or a plain store of a 32-bit value), which is
modelled with `|||`, `&&&` and explicit complements against the 32-bit mask.
The C bitwise complement `~m` on a `uint32_t` operand is `0xFFFFFFFF - m`.
Busy-wait polling loops on hardware-set status flags are modelled by an
idealized responsive hardware step that asserts (or deasserts) the polled flag,
mirroring the register-model style of testing the spec asks for.
-/

/-- All-ones 32-bit mask `0xFFFFFFFF`. -/
def UINT32_MASK : Nat := 2 ^ 32 - 1

/-- C bitwise NOT `~m` of a `uint32_t` value `m ≤ 0xFFFFFFFF`:
flipping all 32 bits of `m` is subtraction from the all-ones mask. -/
def compl32 (m : Nat) : Nat := UINT32_MASK - m

/-! ## SysTick (rcc_aj_stm32f4.c, lines 301-387) -/

/-- Result flag type of the RCC/systick routines.
Modelled from the spec: the header `rcc_aj_stm32f4.h` defining
`RCC_SUCCESS_FLAG` / `RCC_FAIL_FLAG` is not in the repository snapshot; the
spec states the result is "a two-valued result — success or failure". -/
inductive RccResult where
  | RCC_SUCCESS_FLAG : RccResult
  | RCC_FAIL_FLAG : RccResult
deriving DecidableEq, Repr

/-- Maximum SysTick reload value.
Modelled from the spec: the constant `SYSTICK_RELOAD_VAL_MAX` lives in the
header `rcc_aj_stm32f4.h`, absent from the snapshot; the spec fixes it to
"the timer's 24-bit full-scale value, `0x00FFFFFF`". -/
def SYSTICK_RELOAD_VAL_MAX : Nat := 0xFFFFFF

/-- The three SysTick registers (CTRL, LOAD, VAL). -/
structure SysTickRegs where
  ctrl : Nat
  load : Nat
  val : Nat
deriving DecidableEq, Repr

/-- `systick_config_init` (rcc_aj_stm32f4.c lines 301-323).
Both parameters are `uint32_t`; `ticks - 1` is computed in 32-bit unsigned
arithmetic, so it is embedded as `(ticks + (2^32 - 1)) % 2^32` (equal to
`ticks - 1` for `1 ≤ ticks < 2^32` and wrapping to `0xFFFFFFFF` at 0).
SysTick_CTRL bit positions (vendor CMSIS header): ENABLE = 0, TICKINT = 1,
CLKSOURCE = 2. -/
def systick_config_init (interrupt_mode ticks : Nat) (s : SysTickRegs) :
    RccResult × SysTickRegs :=
  let reload := (ticks + (2 ^ 32 - 1)) % 2 ^ 32
  if SYSTICK_RELOAD_VAL_MAX < reload then
    (RccResult.RCC_FAIL_FLAG, s)
  else
    let s := { s with ctrl := 0 }
    let s := { s with load := reload }
    let s := { s with val := 0 }
    let s := { s with
      ctrl := (s.ctrl |||
        ((1 <<< 0) ||| (interrupt_mode <<< 1) ||| (1 <<< 2))) % 2 ^ 32 }
    (RccResult.RCC_SUCCESS_FLAG, s)

/-- Claim C10: calling `systick_config_init` with a tick count of exactly 0
returns the failure flag and touches no SysTick register, because the unsigned
computation `ticks - 1` wraps to `0xFFFFFFFF`, exceeding the 24-bit maximum
reload value. -/
theorem systick_zero_ticks_fails_untouched (interrupt_mode : Nat)
    (s : SysTickRegs) :
    systick_config_init interrupt_mode 0 s = (RccResult.RCC_FAIL_FLAG, s) :=
  rfl

/-- Counterexample for claim C1: calling `systick_config_init` with a tick
count of `0x01000000` (one past `0x00FFFFFF`) does NOT return the failure
flag: the reload value `ticks - 1 = 0x00FFFFFF` passes the range check, the
routine programs the registers (LOAD becomes `0x00FFFFFF`) and reports
success. -/
theorem systick_max_plus_one_reports_success :
    (systick_config_init 0 16777216 ⟨0, 0, 0⟩).1 =
      RccResult.RCC_SUCCESS_FLAG ∧
    (systick_config_init 0 16777216 ⟨0, 0, 0⟩).2.load = 16777215 := by
  constructor <;> rfl

/-- Claim C1 (amended): whenever the 32-bit computation `ticks - 1` exceeds
the maximum representable reload value `0x00FFFFFF` — that is, for tick counts
above `0x01000000`, and for 0 by wraparound — `systick_config_init` returns
the failure flag and leaves the SysTick control, load and current-value
registers unchanged; a tick count of exactly `0x01000000` (reload
`0x00FFFFFF`) is accepted. -/
theorem systick_overrange_fails_untouched (interrupt_mode ticks : Nat)
    (s : SysTickRegs)
    (h : SYSTICK_RELOAD_VAL_MAX < (ticks + (2 ^ 32 - 1)) % 2 ^ 32) :
    systick_config_init interrupt_mode ticks s =
      (RccResult.RCC_FAIL_FLAG, s) := by
  unfold systick_config_init
  simp only [if_pos h]

/-- Witness for the amended claim C1, at tick count `0x01000001`
(reload value `0x01000000`, one past the maximum). -/
theorem systick_overrange_fails_untouched_witness :
    systick_config_init 1 16777217 ⟨7, 8, 9⟩ =
      (RccResult.RCC_FAIL_FLAG, ⟨7, 8, 9⟩) :=
  systick_overrange_fails_untouched 1 16777217 ⟨7, 8, 9⟩ (by decide)

/-! ## SysTick delay routines (rcc_aj_stm32f4.c, lines 346-382)

Each loop iteration writes `SysTick->VAL = 0` and then busy-polls
`SysTick->CTRL` until the COUNTFLAG bit asserts (the flag self-clears on the
read that observes it).  Following the spec's register-model testing setup,
the count flag auto-asserts after each reset-to-zero, so each iteration is one
reset followed by one poll-then-clear cycle.  The routines are embedded as the
sequence (trace) of SysTick register operations they perform. -/

/-- One SysTick register operation performed by the delay loops: a write of 0
to the current-value register, or one complete poll-then-clear cycle on the
control register's count flag. -/
inductive SysTickOp where
  | resetVal : SysTickOp
  | pollCountFlagCycle : SysTickOp
deriving DecidableEq, Repr

/-- Loop of `delay_ms_systick` (lines 350-354): `while (ms_delay--)` runs the
body once per remaining unit. -/
def delay_ms_loop_trace : Nat → List SysTickOp
  | 0 => []
  | n + 1 =>
    SysTickOp.resetVal :: SysTickOp.pollCountFlagCycle :: delay_ms_loop_trace n

/-- Loop of `delay_us_systick` (lines 377-381): `while (us_delay--)` runs the
body once per remaining unit. -/
def delay_us_loop_trace : Nat → List SysTickOp
  | 0 => []
  | n + 1 =>
    SysTickOp.resetVal :: SysTickOp.pollCountFlagCycle :: delay_us_loop_trace n

/-- `delay_ms_systick` (lines 346-355): `ms_delay *= 1000` on a `uint32_t`
(modulo `2^32`), then the reset/poll loop. -/
def delay_ms_systick (ms_delay : Nat) : List SysTickOp :=
  delay_ms_loop_trace (ms_delay * 1000 % 2 ^ 32)

/-- `delay_us_systick` (lines 375-382): the reset/poll loop directly on the
microsecond count. -/
def delay_us_systick (us_delay : Nat) : List SysTickOp :=
  delay_us_loop_trace us_delay

/-- Number of poll-then-clear cycles in a trace. -/
def pollCycles : List SysTickOp → Nat
  | [] => 0
  | SysTickOp.pollCountFlagCycle :: rest => pollCycles rest + 1
  | _ :: rest => pollCycles rest

theorem delay_loop_traces_eq (n : Nat) :
    delay_ms_loop_trace n = delay_us_loop_trace n := by
  induction n with
  | zero => rfl
  | succ n ih => simp [delay_ms_loop_trace, delay_us_loop_trace, ih]

theorem pollCycles_loop (n : Nat) :
    pollCycles (delay_ms_loop_trace n) = n := by
  induction n with
  | zero => rfl
  | succ n ih => simp [delay_ms_loop_trace, pollCycles, ih]

/-- Claim C7: `delay_ms_systick n` performs exactly the same sequence of
SysTick register operations as `delay_us_systick (1000 * n)` with the 32-bit
multiplication taken modulo `2^32`; and a 2-millisecond call, with the count
flag auto-asserting after each reset, consumes exactly 2000 poll-then-clear
cycles before returning. -/
theorem delay_ms_refines_us :
    (∀ n : Nat, delay_ms_systick n = delay_us_systick (1000 * n % 2 ^ 32)) ∧
    pollCycles (delay_ms_systick 2) = 2000 := by
  constructor
  · intro n
    rw [delay_ms_systick, delay_us_systick, delay_loop_traces_eq,
      Nat.mul_comm]
  · show pollCycles (delay_ms_loop_trace (2 * 1000 % 2 ^ 32)) = 2000
    rw [pollCycles_loop]
    norm_num

/-! ## Bit-level helper lemmas

The source's read-modify-write idiom is `REG |= (REG & ~mask) | value`; these
lemmas normalize it and extract bit fields from the results. -/

/-- The `w`-bit field of `r` starting at bit `pos`. -/
def bits32 (r pos w : Nat) : Nat := r / 2 ^ pos % 2 ^ w

theorem or_absorb_and (a m v : Nat) : a ||| ((a &&& m) ||| v) = a ||| v := by
  apply Nat.eq_of_testBit_eq
  intro i
  simp only [Nat.testBit_or, Nat.testBit_and]
  cases a.testBit i <;> simp

theorem div_pow_or (a b k : Nat) :
    (a ||| b) / 2 ^ k = a / 2 ^ k ||| b / 2 ^ k := by
  rw [← Nat.shiftRight_eq_div_pow, ← Nat.shiftRight_eq_div_pow,
    ← Nat.shiftRight_eq_div_pow]
  apply Nat.eq_of_testBit_eq
  intro i
  simp [Nat.testBit_shiftRight, Nat.testBit_or]

theorem mod_pow_or (a b k : Nat) :
    (a ||| b) % 2 ^ k = a % 2 ^ k ||| b % 2 ^ k := by
  apply Nat.eq_of_testBit_eq
  intro i
  simp only [Nat.testBit_mod_two_pow, Nat.testBit_or]
  rw [Bool.and_or_distrib_left]

theorem bits32_or (a b pos w : Nat) :
    bits32 (a ||| b) pos w = bits32 a pos w ||| bits32 b pos w := by
  unfold bits32
  rw [div_pow_or, mod_pow_or]

theorem bits32_shiftLeft_self (x pos w : Nat) (hx : x < 2 ^ w) :
    bits32 (x <<< pos) pos w = x := by
  unfold bits32
  rw [Nat.shiftLeft_eq, Nat.mul_div_cancel x (Nat.pos_pow_of_pos pos
    (by norm_num)), Nat.mod_eq_of_lt hx]

theorem bits32_lt (r pos w : Nat) : bits32 r pos w < 2 ^ w :=
  Nat.mod_lt _ (Nat.pos_pow_of_pos w (by norm_num))

theorem or_all_ones (x w : Nat) (hx : x < 2 ^ w) :
    x ||| (2 ^ w - 1) = 2 ^ w - 1 := by
  apply Nat.eq_of_testBit_eq
  intro i
  simp only [Nat.testBit_or, Nat.testBit_two_pow_sub_one]
  cases Decidable.em (i < w) with
  | inl h => simp [h]
  | inr h =>
    have : x.testBit i = false :=
      Nat.testBit_eq_false_of_lt (lt_of_lt_of_le hx
        (Nat.pow_le_pow_right (by norm_num) (Nat.le_of_not_lt h)))
    simp [this, h]

theorem shiftLeft_testBit_outside (x pos w i : Nat) (hx : x < 2 ^ w)
    (h : i < pos ∨ pos + w ≤ i) : (x <<< pos).testBit i = false := by
  rw [Nat.testBit_shiftLeft]
  rcases h with h | h
  · simp [Nat.not_le.mpr h]
  · have hpi : pos ≤ i := le_trans (Nat.le_add_right pos w) h
    have : x.testBit (i - pos) = false :=
      Nat.testBit_eq_false_of_lt (lt_of_lt_of_le hx
        (Nat.pow_le_pow_right (by norm_num) (by omega)))
    simp [hpi, this]

/-! ## MCO configuration (rcc_aj_stm32f4.c, lines 67-111) -/

/-- The MCO channel selector enumeration.
Modelled from the spec: the enumeration lives in `rcc_aj_stm32f4.h`, absent
from the snapshot; the spec says it is "one of two values identifying which of
two microcontroller-clock-output pins to configure". -/
inductive MCO_CHANNEL_e where
  | MCO_CHANNEL_1 : MCO_CHANNEL_e
  | MCO_CHANNEL_2 : MCO_CHANNEL_e
deriving DecidableEq, Repr

/-- RCC and GPIO registers touched by the clock-management routines.
Bit layout (vendor CMSIS header `stm32f407xx.h`):
CR: HSION = 0, HSIRDY = 1, HSEON = 16, HSERDY = 17, PLLON = 24, PLLRDY = 25;
CFGR: SW = 0 (2 bits), SWS = 2 (2 bits), HPRE = 4 (4 bits), PPRE1 = 10
(3 bits), PPRE2 = 13 (3 bits), RTCPRE = 16 (5 bits), MCO1 = 21 (2 bits),
MCO1PRE = 24 (3 bits), MCO2PRE = 27 (3 bits), MCO2 = 30 (2 bits);
PLLCFGR: PLLM = 0 (6 bits), PLLN = 6 (9 bits), PLLP = 16 (2 bits),
PLLSRC = 22, PLLQ = 24 (4 bits);
AHB1ENR: GPIOAEN = 0, GPIOCEN = 2;
GPIO MODER/OSPEEDR: 2-bit fields at `2 * pin`. -/
structure RCCRegs where
  cr : Nat
  cfgr : Nat
  pllcfgr : Nat
  ahb1enr : Nat
  gpioA_moder : Nat
  gpioA_ospeedr : Nat
  gpioC_moder : Nat
  gpioC_ospeedr : Nat
deriving DecidableEq, Repr

/-- `MCO_Config` (lines 67-111).  Each statement of the source is one
read-modify-write on the named register, kept in source shape
(`REG |= (REG & ~mask) | value` and `REG |= value`). -/
def MCO_Config (mco_channel : MCO_CHANNEL_e)
    (mco_clock_source mco_prescaler : Nat) (st : RCCRegs) : RCCRegs :=
  match mco_channel with
  | MCO_CHANNEL_e.MCO_CHANNEL_1 =>
    let st := { st with ahb1enr := st.ahb1enr ||| (1 <<< 0) }
    let st := { st with gpioA_moder := st.gpioA_moder |||
      ((st.gpioA_moder &&& compl32 (3 <<< 16)) ||| (2 <<< 16)) }
    let st := { st with gpioA_ospeedr := st.gpioA_ospeedr ||| (3 <<< 16) }
    let st := { st with cfgr := st.cfgr |||
      ((st.cfgr &&& compl32 (3 <<< 21)) ||| (mco_clock_source <<< 21)) }
    { st with cfgr := st.cfgr |||
      ((st.cfgr &&& compl32 (7 <<< 24)) ||| (mco_prescaler <<< 24)) }
  | MCO_CHANNEL_e.MCO_CHANNEL_2 =>
    let st := { st with ahb1enr := st.ahb1enr ||| (1 <<< 2) }
    let st := { st with gpioC_moder := st.gpioC_moder |||
      ((st.gpioC_moder &&& compl32 (3 <<< 18)) ||| (2 <<< 18)) }
    let st := { st with gpioC_ospeedr := st.gpioC_ospeedr ||| (3 <<< 18) }
    let st := { st with cfgr := st.cfgr |||
      ((st.cfgr &&& compl32 (3 <<< 30)) ||| (mco_clock_source <<< 30)) }
    { st with cfgr := st.cfgr |||
      ((st.cfgr &&& compl32 (7 <<< 27)) ||| (mco_prescaler <<< 27)) }

/-- Counterexample for claim C4: with the MCO1-source field of the
clock-configuration register initially 3 and requested source X = 0, the
post-call MCO1-source field is 3, not X.  The write is `CFGR |= (CFGR & ~mask)
| value`, which ORs the requested value into the old field instead of
replacing it. -/
theorem mco_channel1_source_field_mismatch :
    bits32 (MCO_Config MCO_CHANNEL_e.MCO_CHANNEL_1 0 0
      ⟨0, 3 <<< 21, 0, 0, 0, 0, 0, 0⟩).cfgr 21 2 ≠ 0 := by decide

theorem MCO_Config_ch1_cfgr (X Y : Nat) (st : RCCRegs) :
    (MCO_Config MCO_CHANNEL_e.MCO_CHANNEL_1 X Y st).cfgr =
      st.cfgr ||| (X <<< 21) ||| (Y <<< 24) := by
  simp only [MCO_Config]
  rw [or_absorb_and, or_absorb_and]

theorem MCO_Config_ch1_moder (X Y : Nat) (st : RCCRegs) :
    (MCO_Config MCO_CHANNEL_e.MCO_CHANNEL_1 X Y st).gpioA_moder =
      st.gpioA_moder ||| (2 <<< 16) := by
  simp only [MCO_Config]
  rw [or_absorb_and]

theorem MCO_Config_ch1_ospeedr (X Y : Nat) (st : RCCRegs) :
    (MCO_Config MCO_CHANNEL_e.MCO_CHANNEL_1 X Y st).gpioA_ospeedr =
      st.gpioA_ospeedr ||| (3 <<< 16) := rfl

theorem MCO_Config_ch1_ahb1enr (X Y : Nat) (st : RCCRegs) :
    (MCO_Config MCO_CHANNEL_e.MCO_CHANNEL_1 X Y st).ahb1enr =
      st.ahb1enr ||| (1 <<< 0) := rfl

theorem bits32_shiftLeft24_at21 (Y : Nat) : bits32 (Y <<< 24) 21 2 = 0 := by
  unfold bits32
  rw [Nat.shiftLeft_eq, show (2 : Nat) ^ 24 = 2 ^ 3 * 2 ^ 21 by norm_num,
    ← Nat.mul_assoc,
    Nat.mul_div_cancel _ (Nat.pos_pow_of_pos 21 (by norm_num)),
    show Y * 2 ^ 3 = Y * 2 * 2 ^ 2 by ring, Nat.mul_mod_left]

theorem bits32_shiftLeft21_at24 (X : Nat) (hX : X < 4) :
    bits32 (X <<< 21) 24 3 = 0 := by
  unfold bits32
  rw [Nat.shiftLeft_eq, show (2 : Nat) ^ 24 = 2 ^ 21 * 2 ^ 3 by norm_num,
    ← Nat.div_div_eq_div_mul,
    Nat.mul_div_cancel _ (Nat.pos_pow_of_pos 21 (by norm_num)),
    Nat.div_eq_of_lt (by omega), Nat.zero_mod]

/-- Claim C4 (amended): calling `MCO_Config` with channel 1, source X < 4 and
prescaler Y < 8, starting from a register state in which pin 8's mode field
and the MCO1-source and MCO1-prescaler fields are zero, results in: the
GPIO-port-A clock-enable bit set; pin 8's mode field equal to 2; pin 8's speed
field equal to 3; the MCO1-source field equal to X; the MCO1-prescaler field
equal to Y; and every bit of the clock-configuration register outside those
two fields — below bit 21, bit 23 between them, and above bit 26 — unchanged
(the frame part holds for every starting state).  The
restriction on the starting fields is forced by the source's
`REG |= (REG & ~mask) | value` idiom, which ORs the new value into the old
field contents instead of replacing them. -/
theorem mco_channel1_config_amended (X Y : Nat) (st : RCCRegs)
    (hX : X < 4) (hY : Y < 8)
    (hm : bits32 st.gpioA_moder 16 2 = 0)
    (hs : bits32 st.cfgr 21 2 = 0)
    (hp : bits32 st.cfgr 24 3 = 0) :
    (MCO_Config MCO_CHANNEL_e.MCO_CHANNEL_1 X Y st).ahb1enr.testBit 0 =
      true ∧
    bits32 (MCO_Config MCO_CHANNEL_e.MCO_CHANNEL_1 X Y st).gpioA_moder 16 2 =
      2 ∧
    bits32 (MCO_Config MCO_CHANNEL_e.MCO_CHANNEL_1 X Y st).gpioA_ospeedr 16 2
      = 3 ∧
    bits32 (MCO_Config MCO_CHANNEL_e.MCO_CHANNEL_1 X Y st).cfgr 21 2 = X ∧
    bits32 (MCO_Config MCO_CHANNEL_e.MCO_CHANNEL_1 X Y st).cfgr 24 3 = Y ∧
    ∀ i : Nat, i < 21 ∨ i = 23 ∨ 26 < i →
      (MCO_Config MCO_CHANNEL_e.MCO_CHANNEL_1 X Y st).cfgr.testBit i =
        st.cfgr.testBit i := by
  refine ⟨?_, ?_, ?_, ?_, ?_, ?_⟩
  · rw [MCO_Config_ch1_ahb1enr]
    simp [Nat.testBit_or]
  · rw [MCO_Config_ch1_moder, bits32_or, hm,
      bits32_shiftLeft_self 2 16 2 (by norm_num), Nat.zero_or]
  · rw [MCO_Config_ch1_ospeedr, bits32_or,
      bits32_shiftLeft_self 3 16 2 (by norm_num)]
    exact or_all_ones _ 2 (bits32_lt _ 16 2)
  · rw [MCO_Config_ch1_cfgr, bits32_or, bits32_or, hs,
      bits32_shiftLeft_self X 21 2 hX, bits32_shiftLeft24_at21,
      Nat.zero_or, Nat.or_zero]
  · rw [MCO_Config_ch1_cfgr, bits32_or, bits32_or, hp,
      bits32_shiftLeft21_at24 X hX,
      bits32_shiftLeft_self Y 24 3 hY, Nat.zero_or, Nat.zero_or]
  · intro i hi
    rw [MCO_Config_ch1_cfgr]
    simp only [Nat.testBit_or]
    rw [shiftLeft_testBit_outside X 21 2 i hX (by omega),
      shiftLeft_testBit_outside Y 24 3 i hY (by omega)]
    simp

/-- Witness for the amended claim C4, at source 1, prescaler 5 and the
all-zero starting state. -/
theorem mco_channel1_config_amended_witness :
    bits32 (MCO_Config MCO_CHANNEL_e.MCO_CHANNEL_1 1 5
      ⟨0, 0, 0, 0, 0, 0, 0, 0⟩).cfgr 21 2 = 1 :=
  (mco_channel1_config_amended 1 5 ⟨0, 0, 0, 0, 0, 0, 0, 0⟩ (by decide)
    (by decide) (by decide) (by decide) (by decide)).2.2.2.1

/-! ## Bus-clock configuration (rcc_aj_stm32f4.c, lines 263-276) -/

/-- `system_bus_clk_cfg_t`: three pre-encoded prescaler field values. -/
structure system_bus_clk_cfg_t where
  ppre1_apb1_pre : Nat
  ppre2_apb2_pre : Nat
  rtcpre_pre : Nat
deriving DecidableEq, Repr

/-- `system_clock_setting` (lines 263-276): three read-modify-writes on the
clock-configuration register (PPRE1 mask `7 <<< 10`, PPRE2 mask `7 <<< 13`,
RTCPRE mask `0x1F <<< 16`).  The `sys_core_clock` parameter is kept to mirror
the C signature. -/
def system_clock_setting (sys_core_clock : Nat)
    (sys_bus_clk_cfg : system_bus_clk_cfg_t) (st : RCCRegs) : RCCRegs :=
  let st := { st with cfgr := st.cfgr |||
    ((st.cfgr &&& compl32 (7 <<< 10)) ||| sys_bus_clk_cfg.ppre1_apb1_pre) }
  let st := { st with cfgr := st.cfgr |||
    ((st.cfgr &&& compl32 (7 <<< 13)) ||| sys_bus_clk_cfg.ppre2_apb2_pre) }
  { st with cfgr := st.cfgr |||
    ((st.cfgr &&& compl32 (0x1F <<< 16)) ||| sys_bus_clk_cfg.rtcpre_pre) }

/-- Claim C9: the final register state produced by `system_clock_setting` is
independent of its `sys_core_clock` argument: two calls differing only in
that value leave identical clock-configuration register contents, for every
bus-clock configuration record and starting state. -/
theorem system_clock_setting_core_clock_independent
    (clk1 clk2 : Nat) (cfg : system_bus_clk_cfg_t) (st : RCCRegs) :
    system_clock_setting clk1 cfg st = system_clock_setting clk2 cfg st :=
  rfl

/-! ## System clock source configuration (rcc_aj_stm32f4.c, lines 132-242) -/

/-- System clock source selector values.
Modelled from the spec: the enumeration lives in `rcc_aj_stm32f4.h`, absent
from the snapshot; the routine writes the selector directly into the 2-bit SW
field, whose hardware encoding is HSI = 0, HSE = 1, PLL = 2. -/
def SYS_CLOCK_SOURCE_HSI : Nat := 0

/-- See `SYS_CLOCK_SOURCE_HSI`. -/
def SYS_CLOCK_SOURCE_HSE : Nat := 1

/-- See `SYS_CLOCK_SOURCE_HSI`. -/
def SYS_CLOCK_SOURCE_PLL : Nat := 2

/-- PLL clock source selector values.
Modelled from the spec: the enumeration lives in `rcc_aj_stm32f4.h`, absent
from the snapshot; the routine writes the selector directly into the PLLSRC
bit, whose hardware encoding is HSI = 0, HSE = 1. -/
def PLL_CLOCK_SRC_HSI : Nat := 0

/-- See `PLL_CLOCK_SRC_HSI`. -/
def PLL_CLOCK_SRC_HSE : Nat := 1

/-- `RCC_PLL_CONFIG_PARAMS_t`: the caller's PLL divider/multiplier record. -/
structure RCC_PLL_CONFIG_PARAMS_t where
  PLLM : Nat
  PLLN : Nat
  PLLP : Nat
  PLLQ : Nat
deriving DecidableEq, Repr

/-- The combined write of the HSI branch (lines 141-142):
`RCC->CR |= (1 << HSION) & ~(1 << HSEON) & ~(1 << PLLON)`. -/
def rcc_cr_hsi_on_write (cr : Nat) : Nat :=
  cr ||| ((1 <<< 0) &&& compl32 (1 <<< 16) &&& compl32 (1 <<< 24))

/-- The combined write of the HSE branch (lines 152-153):
`RCC->CR |= (1 << HSEON) & ~(1 << HSION) & ~(1 << PLLON)`. -/
def rcc_cr_hse_on_write (cr : Nat) : Nat :=
  cr ||| ((1 <<< 16) &&& compl32 (1 <<< 0) &&& compl32 (1 <<< 24))

/-- Idealized responsive hardware for a busy-poll loop waiting on a
hardware-set status flag: the hardware asserts the polled bit and the loop
exits. -/
def hw_assert_bit (bit cr : Nat) : Nat := cr ||| (1 <<< bit)

/-- Idealized responsive hardware for the busy-poll loop waiting for the
PLL-ready flag to clear (line 163): the hardware deasserts the polled bit. -/
def hw_deassert_bit (bit cr : Nat) : Nat := cr &&& compl32 (1 <<< bit)

/-- Final system-clock switch (lines 225-241): program the SW field, poll SWS
until it equals the requested source, then clear HPRE.  The hardware model
mirrors the SW field into SWS; if the polled equality can never hold the C
code hangs, which is modelled by returning `false` together with the register
state at the hang point (the HPRE clear is then never executed). -/
def rcc_sysclk_switch (system_clock_source : Nat) (st : RCCRegs) :
    Bool × RCCRegs :=
  let cfgr := st.cfgr |||
    ((st.cfgr &&& compl32 (3 <<< 0)) ||| (system_clock_source <<< 0))
  let cfgr := (cfgr &&& compl32 (3 <<< 2)) ||| ((cfgr &&& 3) <<< 2)
  if (cfgr >>> 2) &&& 3 = system_clock_source then
    (true, { st with cfgr := cfgr &&& compl32 (0xF <<< 4) })
  else
    (false, { st with cfgr := cfgr })

/-- `RCC_System_Clock_Source_Config` (lines 132-242), as a state transformer
under the idealized responsive hardware model for the ready-flag polls.  The
result is `none` when the PLL branch dereferences a null parameter record;
otherwise `some (done, registers, record)` where `done` is `false` if the SWS
poll can never exit, and `record` is the caller's (possibly mutated) PLL
parameter record.  The fixed 15,000-iteration empty delay loops touch no
register and are dropped. -/
def RCC_System_Clock_Source_Config (system_clock_source pll_clock_source :
    Nat) (rcc_pll_config_param : Option RCC_PLL_CONFIG_PARAMS_t)
    (st : RCCRegs) :
    Option (Bool × RCCRegs × Option RCC_PLL_CONFIG_PARAMS_t) :=
  if system_clock_source = SYS_CLOCK_SOURCE_HSI then
    let st := { st with cr := hw_assert_bit 1 (rcc_cr_hsi_on_write st.cr) }
    let r := rcc_sysclk_switch system_clock_source st
    some (r.1, r.2, rcc_pll_config_param)
  else if system_clock_source = SYS_CLOCK_SOURCE_HSE then
    let st := { st with cr := hw_assert_bit 17 (rcc_cr_hse_on_write st.cr) }
    let r := rcc_sysclk_switch system_clock_source st
    some (r.1, r.2, rcc_pll_config_param)
  else if system_clock_source = SYS_CLOCK_SOURCE_PLL then
    match rcc_pll_config_param with
    | none => none
    | some p =>
      let st := { st with
        cr := hw_deassert_bit 25 (st.cr &&& compl32 (1 <<< 24)) }
      let p := { p with PLLP := p.PLLP / 2 - 1 }
      let st :=
        if pll_clock_source = PLL_CLOCK_SRC_HSI then
          { st with cr := hw_assert_bit 1 (rcc_cr_hsi_on_write st.cr) }
        else if pll_clock_source = PLL_CLOCK_SRC_HSE then
          { st with cr := hw_assert_bit 17 (rcc_cr_hse_on_write st.cr) }
        else st
      let st := { st with pllcfgr := st.pllcfgr &&&
        (compl32 0x3F &&& compl32 (0x1FF <<< 6) &&& compl32 (3 <<< 16) &&&
          compl32 (0xF <<< 24) &&& compl32 (1 <<< 22)) }
      let st := { st with pllcfgr := st.pllcfgr |||
        ((p.PLLM <<< 0) ||| (p.PLLN <<< 6) ||| (p.PLLP <<< 16) |||
          (p.PLLQ <<< 24) ||| (pll_clock_source <<< 22)) }
      let st := { st with cfgr := st.cfgr &&&
        (compl32 (0xF <<< 4) &&& compl32 (7 <<< 10) &&&
          compl32 (7 <<< 13)) }
      let st := { st with cr := hw_assert_bit 25 (st.cr ||| (1 <<< 24)) }
      let r := rcc_sysclk_switch system_clock_source st
      some (r.1, r.2, some p)
  else
    let r := rcc_sysclk_switch system_clock_source st
    some (r.1, r.2, rcc_pll_config_param)

/-- The PLL parameter record returned (possibly mutated) by
`RCC_System_Clock_Source_Config`. -/
def rcc_config_record :
    Option (Bool × RCCRegs × Option RCC_PLL_CONFIG_PARAMS_t) →
      Option RCC_PLL_CONFIG_PARAMS_t
  | none => none
  | some (_, _, p) => p

/-- Claim C3: when `RCC_System_Clock_Source_Config` is called with the PLL as
system clock source and a non-null PLL parameter record whose PLLP field is
an even value from {2, 4, 6, 8}, the routine overwrites that field of the
caller's record in place with `value / 2 - 1` before writing it to hardware;
in particular an input PLLP of 4, 6, or 8 leaves 1, 2, or 3 respectively. -/
theorem rcc_pll_record_mutated (pll_clock_source : Nat)
    (p : RCC_PLL_CONFIG_PARAMS_t) (st : RCCRegs)
    (h : p.PLLP = 2 ∨ p.PLLP = 4 ∨ p.PLLP = 6 ∨ p.PLLP = 8) :
    rcc_config_record (RCC_System_Clock_Source_Config SYS_CLOCK_SOURCE_PLL
      pll_clock_source (some p) st) = some { p with PLLP := p.PLLP / 2 - 1 } ∧
    (p.PLLP = 4 → p.PLLP / 2 - 1 = 1) ∧
    (p.PLLP = 6 → p.PLLP / 2 - 1 = 2) ∧
    (p.PLLP = 8 → p.PLLP / 2 - 1 = 3) := by
  refine ⟨?_, ?_, ?_, ?_⟩
  · simp only [RCC_System_Clock_Source_Config, SYS_CLOCK_SOURCE_PLL,
      SYS_CLOCK_SOURCE_HSI, SYS_CLOCK_SOURCE_HSE]
    norm_num
    split <;> rfl
  · intro h4
    rw [h4]
  · intro h6
    rw [h6]
  · intro h8
    rw [h8]

/-- Witness for claim C3, at PLLP = 4, PLL fed from HSE, and the all-zero
starting state. -/
theorem rcc_pll_record_mutated_witness :
    rcc_config_record (RCC_System_Clock_Source_Config SYS_CLOCK_SOURCE_PLL
      PLL_CLOCK_SRC_HSE (some ⟨8, 336, 4, 7⟩) ⟨0, 0, 0, 0, 0, 0, 0, 0⟩) =
      some ⟨8, 336, 1, 7⟩ :=
  (rcc_pll_record_mutated PLL_CLOCK_SRC_HSE ⟨8, 336, 4, 7⟩
    ⟨0, 0, 0, 0, 0, 0, 0, 0⟩ (by norm_num)).1

/-- Claim C5: the single combined write of the HSI branch (lines 141-142)
sets the HSI-enable bit (bit 0) of the clock control register but leaves the
HSE-enable (bit 16) and PLL-enable (bit 24) bits exactly as they were, and
never clears any bit that was set beforehand, for every prior register
state: the written value `(1 << HSION) & ~(1 << HSEON) & ~(1 << PLLON)`
collapses to the single HSI-enable bit, and an OR cannot clear bits. -/
theorem rcc_hsi_write_preserves_hse_pll (cr : Nat) :
    (rcc_cr_hsi_on_write cr).testBit 0 = true ∧
    (rcc_cr_hsi_on_write cr).testBit 16 = cr.testBit 16 ∧
    (rcc_cr_hsi_on_write cr).testBit 24 = cr.testBit 24 ∧
    ∀ i : Nat, cr.testBit i = true → (rcc_cr_hsi_on_write cr).testBit i =
      true := by
  have hconst : (1 <<< 0) &&& compl32 (1 <<< 16) &&& compl32 (1 <<< 24) =
      (1 : Nat) := by decide
  rw [rcc_cr_hsi_on_write, hconst]
  refine ⟨?_, ?_, ?_, ?_⟩
  · simp [Nat.testBit_or]
  · simp [Nat.testBit_or, show Nat.testBit 1 16 = false by decide]
  · simp [Nat.testBit_or, show Nat.testBit 1 24 = false by decide]
  · intro i hi
    simp [Nat.testBit_or, hi]

/-- Witness for claim C5, at a prior register state with the HSE-enable and
PLL-enable bits set (`0x01010000`): both remain set after the write. -/
theorem rcc_hsi_write_preserves_hse_pll_witness :
    (rcc_cr_hsi_on_write 16842752).testBit 16 = true :=
  (rcc_hsi_write_preserves_hse_pll 16842752).2.2.2 16 (by decide)

/-! ## USART configuration (usart_aj_stm32f4.c)

Peripheral instances and GPIO ports are identified by their memory-mapped
base addresses (vendor header `stm32f407xx.h`); C pointer subtraction between
two instance pointers divides the byte distance by the size of the register
block (28 bytes for a USART block of 7 registers, 40 bytes for a GPIO block
of 10 registers). -/

/-- USART/UART instance base addresses (vendor header). -/
def USART1_BASE : Nat := 0x40011000

/-- See `USART1_BASE`. -/
def USART2_BASE : Nat := 0x40004400

/-- See `USART1_BASE`. -/
def USART3_BASE : Nat := 0x40004800

/-- See `USART1_BASE`. -/
def UART4_BASE : Nat := 0x40004C00

/-- See `USART1_BASE`. -/
def UART5_BASE : Nat := 0x40005000

/-- See `USART1_BASE`. -/
def USART6_BASE : Nat := 0x40011400

/-- GPIO port base addresses (vendor header). -/
def GPIOA_BASE : Nat := 0x40020000

/-- See `GPIOA_BASE`. -/
def GPIOB_BASE : Nat := 0x40020400

/-- The fixed GPIO port referenced by the source's pin-characteristic and
alternate-function steps through the bare macro `GPIOx`.
Modelled from the spec: the macro's definition is in a header absent from the
snapshot; the spec states these steps "operate on a fixed port reference
rather than necessarily the caller-supplied transmit port". -/
def GPIOx_BASE : Nat := GPIOA_BASE

/-- C pointer subtraction between two USART instance pointers: byte distance
divided by the 28-byte register-block size. -/
def usart_ptr_diff (a b : Nat) : Nat := (a - b) / 28

/-- C pointer subtraction between two GPIO port pointers: byte distance
divided by the 40-byte register-block size. -/
def gpio_ptr_diff (a b : Nat) : Nat := (a - b) / 40

/-- USART status code.
Modelled from the spec: the enumeration lives in `usart_aj_stm32f4.h`,
absent from the snapshot; the spec states it is "a two-valued result —
success or (reserved, currently unused) failure". -/
inductive usart_status_e_t where
  | USART_STATUS_SUCCESS : usart_status_e_t
  | USART_STATUS_FAIL : usart_status_e_t
deriving DecidableEq, Repr

/-- Communication-mode selector.
Modelled from the spec: the enumeration lives in `usart_aj_stm32f4.h`,
absent from the snapshot; the spec states it is a single-valued enumeration
field with distinct asynchronous and synchronous values. -/
inductive usart_compat_mode_e_t where
  | USART_COMPATIBLE_MODE_ASYNC : usart_compat_mode_e_t
  | USART_COMPATIBLE_MODE_SYNC : usart_compat_mode_e_t
deriving DecidableEq, Repr

/-- Transmit/receive enable mode values.
Modelled from the spec: the enumeration lives in `usart_aj_stm32f4.h`,
absent from the snapshot; the value is both compared against these constants
and written as the 2-bit RE/TE group of USART_CR1, so receive-only is 1,
transmit-only 2, both 3. -/
def USART_TXRX_MODE_RX_EN : Nat := 1

/-- See `USART_TXRX_MODE_RX_EN`. -/
def USART_TXRX_MODE_TX_EN : Nat := 2

/-- See `USART_TXRX_MODE_RX_EN`. -/
def USART_TXRX_MODE_RX_TX_BOTH_EN : Nat := 3

/-- Oversampling selector values.
Modelled from the spec: the spec states "`oversample_selector` is 0 for 16x
oversampling and 1 for 8x", matching the OVER8 register bit it is written
to. -/
def USART_OVERSAMPLE_BY_16 : Nat := 0

/-- See `USART_OVERSAMPLE_BY_16`. -/
def USART_OVERSAMPLE_BY_8 : Nat := 1

/-- `usart_config_st_t`: the USART configuration descriptor.  The C field
`instance` is renamed `usart_instance` (Lean keyword); `txrxmod` is the
misspelled field name the source reads at lines 110 and 128, kept as its own
field as the source declares no such spelling fix. -/
structure usart_config_st_t where
  usart_instance : Nat
  txrxmode : Nat
  txrxmod : Nat
  parity_en : Nat
  parity : Nat
  wordlen : Nat
  oversample : Nat
  stopbits : Nat
  compatmode : usart_compat_mode_e_t
  baudrate : Nat

/-- The registers touched by `usart_config`.  Per-port GPIO registers and
per-instance USART registers are maps from base address to contents; `afrA`
is GPIO port A's alternate-function register pair, indexed by the array
subscript the source computes. -/
structure USARTHw where
  apb2enr : Nat
  apb1enr : Nat
  ahb1enr : Nat
  moder : Nat → Nat
  otyper : Nat → Nat
  ospeedr : Nat → Nat
  pupdr : Nat → Nat
  afrA : Nat → Nat
  cr1 : Nat → Nat
  cr2 : Nat → Nat
  brr : Nat → Nat

/-- Pointwise update of a register map. -/
def updf (f : Nat → Nat) (k v : Nat) : Nat → Nat :=
  fun x => if x = k then v else f x

/-- Peripheral clock enable (usart_aj_stm32f4.c lines 38-59).
APB2ENR USART1EN is bit 4 (mask 2 bits wide), APB1ENR USART2EN is bit 17
(mask 4 bits wide). -/
def usart_clk_enable (cfg : usart_config_st_t) (st : USARTHw) : USARTHw :=
  if cfg.usart_instance = USART1_BASE ∨ cfg.usart_instance = USART6_BASE then
    let tmp := usart_ptr_diff cfg.usart_instance USART1_BASE /
      usart_ptr_diff USART6_BASE USART1_BASE
    { st with apb2enr := st.apb2enr |||
      ((st.apb2enr &&& compl32 (3 <<< 4)) ||| (1 <<< (4 + tmp))) }
  else
    let tmp := usart_ptr_diff cfg.usart_instance USART2_BASE /
      usart_ptr_diff USART3_BASE USART2_BASE
    { st with apb1enr := st.apb1enr |||
      ((st.apb1enr &&& compl32 (0xF <<< 17)) ||| (1 <<< (17 + tmp))) }

/-- GPIO clock enable, pin mode and transmit-pin electrical setup
(lines 66-95).  The electrical step writes the fixed port `GPIOx`. -/
def usart_gpio_setup (cfg : usart_config_st_t)
    (tx_GPIOx tx_gpio_pin rx_GPIOx rx_gpio_pin : Nat) (st : USARTHw) :
    USARTHw :=
  let st := { st with ahb1enr := st.ahb1enr |||
    (1 <<< (gpio_ptr_diff tx_GPIOx GPIOA_BASE /
      gpio_ptr_diff GPIOB_BASE GPIOA_BASE)) }
  let st := { st with ahb1enr := st.ahb1enr |||
    (1 <<< (gpio_ptr_diff rx_GPIOx GPIOA_BASE /
      gpio_ptr_diff GPIOB_BASE GPIOA_BASE)) }
  let st := { st with moder := updf st.moder tx_GPIOx (st.moder tx_GPIOx |||
      ((st.moder tx_GPIOx &&& compl32 (3 <<< (tx_gpio_pin * 2))) |||
        (2 <<< (tx_gpio_pin * 2)))) }
  let st := { st with moder := updf st.moder rx_GPIOx (st.moder rx_GPIOx |||
      ((st.moder rx_GPIOx &&& compl32 (3 <<< (rx_gpio_pin * 2))) |||
        (2 <<< (rx_gpio_pin * 2)))) }
  if cfg.txrxmode = USART_TXRX_MODE_TX_EN ∨
      cfg.txrxmode = USART_TXRX_MODE_RX_TX_BOTH_EN then
    let st := { st with otyper := updf st.otyper GPIOx_BASE (st.otyper
      GPIOx_BASE |||
        (st.otyper GPIOx_BASE &&& compl32 (1 <<< tx_gpio_pin))) }
    let st := { st with ospeedr := updf st.ospeedr GPIOx_BASE (st.ospeedr
      GPIOx_BASE |||
        ((st.ospeedr GPIOx_BASE &&& compl32 (3 <<< (tx_gpio_pin * 2))) |||
          (3 <<< (tx_gpio_pin * 2)))) }
    { st with pupdr := updf st.pupdr GPIOx_BASE (st.pupdr GPIOx_BASE |||
        (st.pupdr GPIOx_BASE &&& compl32 (3 <<< (tx_gpio_pin * 2)))) }
  else st

/-- Alternate-function pin muxing (lines 99-134): AF code 7 for the first
three instances, 8 for the last three, written into port A's AFR pair.  The
receive branches read the misspelled `txrxmod` field, as in the source. -/
def usart_af_mux (cfg : usart_config_st_t) (tx_gpio_pin rx_gpio_pin : Nat)
    (st : USARTHw) : USARTHw :=
  if cfg.usart_instance = USART1_BASE ∨ cfg.usart_instance = USART2_BASE ∨
      cfg.usart_instance = USART3_BASE then
    if cfg.txrxmode = USART_TXRX_MODE_TX_EN ∨
        cfg.txrxmode = USART_TXRX_MODE_RX_TX_BOTH_EN then
      let tmp := tx_gpio_pin / 8
      { st with afrA := updf st.afrA tmp (st.afrA tmp |||
        ((st.afrA tmp &&& compl32 (0xF <<< (tx_gpio_pin * 4))) |||
          (7 <<< (tx_gpio_pin * 4)))) }
    else if cfg.txrxmode = USART_TXRX_MODE_RX_TX_BOTH_EN ∨
        cfg.txrxmod = USART_TXRX_MODE_RX_EN then
      let tmp := rx_gpio_pin / 8
      { st with afrA := updf st.afrA tmp (st.afrA tmp |||
        ((st.afrA tmp &&& compl32 (0xF <<< (rx_gpio_pin * 4))) |||
          (7 <<< (rx_gpio_pin * 4)))) }
    else st
  else if cfg.usart_instance = UART4_BASE ∨ cfg.usart_instance = UART5_BASE ∨
      cfg.usart_instance = USART6_BASE then
    if cfg.txrxmode = USART_TXRX_MODE_TX_EN ∨
        cfg.txrxmode = USART_TXRX_MODE_RX_TX_BOTH_EN then
      let tmp := tx_gpio_pin / 8
      { st with afrA := updf st.afrA tmp (st.afrA tmp |||
        ((st.afrA tmp &&& compl32 (0xF <<< (tx_gpio_pin * 4))) |||
          (8 <<< (tx_gpio_pin * 4)))) }
    else if cfg.txrxmode = USART_TXRX_MODE_RX_TX_BOTH_EN ∨
        cfg.txrxmod = USART_TXRX_MODE_RX_EN then
      let tmp := rx_gpio_pin / 8
      { st with afrA := updf st.afrA tmp (st.afrA tmp |||
        ((st.afrA tmp &&& compl32 (0xF <<< (rx_gpio_pin * 4))) |||
          (8 <<< (rx_gpio_pin * 4)))) }
    else st
  else st

/-- Control registers 1 and 2 (lines 137-159).  USART_CR1 bit positions:
RE = 2, PS = 9, PCE = 10, M = 12, UE = 13, OVER8 = 15; USART_CR2 STOP = 12. -/
def usart_cr_setup (cfg : usart_config_st_t) (st : USARTHw) : USARTHw :=
  let i := cfg.usart_instance
  let tmp := (cfg.txrxmode <<< 2) ||| (cfg.parity_en <<< 10) |||
    (cfg.parity <<< 9) ||| (cfg.wordlen <<< 12) |||
    (cfg.oversample <<< 15) ||| (1 <<< 13)
  let st := { st with cr1 := updf st.cr1 i (st.cr1 i &&&
    compl32 ((3 <<< 2) ||| (1 <<< 10) ||| (1 <<< 9) ||| (1 <<< 12) |||
      (1 <<< 15) ||| (1 <<< 13))) }
  let st := { st with cr1 := updf st.cr1 i (st.cr1 i ||| tmp) }
  let st := { st with cr2 := updf st.cr2 i (st.cr2 i &&&
    compl32 (3 <<< 12)) }
  { st with cr2 := updf st.cr2 i (st.cr2 i ||| (cfg.stopbits <<< 12)) }

/-- The condition gating the baud-rate-divisor computation (lines 162-163):
the communication-mode selector must equal the asynchronous AND the
synchronous enumeration value simultaneously. -/
def usart_baud_guard (cfg : usart_config_st_t) : Bool :=
  decide (cfg.compatmode =
      usart_compat_mode_e_t.USART_COMPATIBLE_MODE_ASYNC) &&
    decide (cfg.compatmode =
      usart_compat_mode_e_t.USART_COMPATIBLE_MODE_SYNC)

/-- Baud-rate register programming (lines 162-187).  The divisor arithmetic
inside the guarded branch uses C `float`/`double` rounding; since the claims
quantify over every value it could produce, the value written to BRR in each
oversampling branch is an arbitrary parameter (`baud16` / `baud8`), and the
two source statements (clear BRR, then OR the value in) are kept. -/
def usart_baud_setup (cfg : usart_config_st_t) (baud16 baud8 : Nat)
    (st : USARTHw) : USARTHw :=
  if usart_baud_guard cfg then
    if cfg.oversample = USART_OVERSAMPLE_BY_16 then
      let st := { st with brr := updf st.brr cfg.usart_instance 0 }
      { st with brr := updf st.brr cfg.usart_instance (st.brr
        cfg.usart_instance ||| baud16) }
    else if cfg.oversample = USART_OVERSAMPLE_BY_8 then
      let st := { st with brr := updf st.brr cfg.usart_instance 0 }
      { st with brr := updf st.brr cfg.usart_instance (st.brr
        cfg.usart_instance ||| baud8) }
    else st
  else st

/-- `usart_config` (lines 27-192): the fixed sequence of register-programming
steps, returning the success status code (the trailing truncated statement at
line 189 assigns a local variable and is dead; it is dropped as the spec
directs). -/
def usart_config (cfg : usart_config_st_t)
    (tx_GPIOx tx_gpio_pin rx_GPIOx rx_gpio_pin : Nat) (baud16 baud8 : Nat)
    (st : USARTHw) : usart_status_e_t × USARTHw :=
  (usart_status_e_t.USART_STATUS_SUCCESS,
    usart_baud_setup cfg baud16 baud8
      (usart_cr_setup cfg
        (usart_af_mux cfg tx_gpio_pin rx_gpio_pin
          (usart_gpio_setup cfg tx_GPIOx tx_gpio_pin rx_GPIOx rx_gpio_pin
            (usart_clk_enable cfg st)))))

theorem usart_gpio_setup_frame (cfg : usart_config_st_t)
    (tx_GPIOx tx_gpio_pin rx_GPIOx rx_gpio_pin : Nat) (st : USARTHw) :
    (usart_gpio_setup cfg tx_GPIOx tx_gpio_pin rx_GPIOx rx_gpio_pin
        st).apb1enr = st.apb1enr ∧
    (usart_gpio_setup cfg tx_GPIOx tx_gpio_pin rx_GPIOx rx_gpio_pin
        st).apb2enr = st.apb2enr ∧
    (usart_gpio_setup cfg tx_GPIOx tx_gpio_pin rx_GPIOx rx_gpio_pin
        st).brr = st.brr := by
  simp only [usart_gpio_setup]
  split <;> exact ⟨rfl, rfl, rfl⟩

theorem usart_af_mux_frame (cfg : usart_config_st_t)
    (tx_gpio_pin rx_gpio_pin : Nat) (st : USARTHw) :
    (usart_af_mux cfg tx_gpio_pin rx_gpio_pin st).apb1enr = st.apb1enr ∧
    (usart_af_mux cfg tx_gpio_pin rx_gpio_pin st).apb2enr = st.apb2enr ∧
    (usart_af_mux cfg tx_gpio_pin rx_gpio_pin st).brr = st.brr := by
  simp only [usart_af_mux]
  split <;> [skip; split] <;> [skip; skip; skip] <;>
    first
      | exact ⟨rfl, rfl, rfl⟩
      | (split <;> [skip; split] <;> exact ⟨rfl, rfl, rfl⟩)

theorem usart_cr_setup_frame (cfg : usart_config_st_t) (st : USARTHw) :
    (usart_cr_setup cfg st).apb1enr = st.apb1enr ∧
    (usart_cr_setup cfg st).apb2enr = st.apb2enr ∧
    (usart_cr_setup cfg st).brr = st.brr :=
  ⟨rfl, rfl, rfl⟩

theorem usart_baud_guard_false (cfg : usart_config_st_t) :
    usart_baud_guard cfg = false := by
  unfold usart_baud_guard
  cases hc : cfg.compatmode <;> simp [hc]

theorem usart_baud_setup_id (cfg : usart_config_st_t) (baud16 baud8 : Nat)
    (st : USARTHw) : usart_baud_setup cfg baud16 baud8 st = st := by
  unfold usart_baud_setup
  rw [usart_baud_guard_false]
  simp

/-- Claim C8: for every input — any configuration descriptor, any
transmit/receive port and pin arguments, and any value the dead baud-rate
arithmetic could produce — `usart_config` returns the success status code;
the failure value is never produced by any path through the routine. -/
theorem usart_config_always_success (cfg : usart_config_st_t)
    (tx_GPIOx tx_gpio_pin rx_GPIOx rx_gpio_pin baud16 baud8 : Nat)
    (st : USARTHw) :
    (usart_config cfg tx_GPIOx tx_gpio_pin rx_GPIOx rx_gpio_pin baud16 baud8
      st).1 = usart_status_e_t.USART_STATUS_SUCCESS :=
  rfl

/-- Claim C2: for every configuration descriptor and every pair of
transmit/receive port-and-pin arguments, `usart_config` never executes the
baud-rate-divisor computation and leaves every peripheral's baud-rate
register (BRR) unchanged: the guarding condition requires the
communication-mode selector to equal the asynchronous and the synchronous
enumeration values simultaneously, which no single value satisfies. -/
theorem usart_config_brr_unchanged (cfg : usart_config_st_t)
    (tx_GPIOx tx_gpio_pin rx_GPIOx rx_gpio_pin baud16 baud8 : Nat)
    (st : USARTHw) :
    usart_baud_guard cfg = false ∧
    (usart_config cfg tx_GPIOx tx_gpio_pin rx_GPIOx rx_gpio_pin baud16 baud8
      st).2.brr = st.brr := by
  refine ⟨usart_baud_guard_false cfg, ?_⟩
  show (usart_baud_setup cfg baud16 baud8 _).brr = st.brr
  rw [usart_baud_setup_id]
  rw [(usart_cr_setup_frame cfg _).2.2,
    (usart_af_mux_frame cfg tx_gpio_pin rx_gpio_pin _).2.2,
    (usart_gpio_setup_frame cfg tx_GPIOx tx_gpio_pin rx_GPIOx rx_gpio_pin
      _).2.2]
  unfold usart_clk_enable
  split <;> rfl

theorem usart_clk_enable_usart1 (cfg : usart_config_st_t) (st : USARTHw)
    (h : cfg.usart_instance = USART1_BASE) :
    usart_clk_enable cfg st =
      { st with apb2enr := st.apb2enr ||| (1 <<< 4) } := by
  unfold usart_clk_enable
  rw [if_pos (Or.inl h), h]
  norm_num [usart_ptr_diff, USART1_BASE, USART6_BASE, or_absorb_and]

theorem usart_clk_enable_uart4 (cfg : usart_config_st_t) (st : USARTHw)
    (h : cfg.usart_instance = UART4_BASE) :
    usart_clk_enable cfg st =
      { st with apb1enr := st.apb1enr ||| (1 <<< 19) } := by
  unfold usart_clk_enable
  rw [h]
  rw [if_neg (by norm_num [UART4_BASE, USART1_BASE, USART6_BASE])]
  norm_num [usart_ptr_diff, USART2_BASE, USART3_BASE, UART4_BASE,
    or_absorb_and]

/-- Claim C6: `usart_config` routes the peripheral clock enable by bus.
Configuring the first serial peripheral (USART1, APB2-resident, offset 0)
sets bit offset 0 of the APB2 enable register's USART field (bit 4) and
leaves the APB1 enable register unchanged; configuring the third
APB1-resident peripheral (UART4, offset 2) sets the corresponding offset bit
of the APB1 enable register (bit 19) and leaves the APB2 enable register
unchanged. -/
theorem usart_config_clk_routing (cfg : usart_config_st_t)
    (tx_GPIOx tx_gpio_pin rx_GPIOx rx_gpio_pin baud16 baud8 : Nat)
    (st : USARTHw) :
    (cfg.usart_instance = USART1_BASE →
      (usart_config cfg tx_GPIOx tx_gpio_pin rx_GPIOx rx_gpio_pin baud16
        baud8 st).2.apb2enr.testBit 4 = true ∧
      (usart_config cfg tx_GPIOx tx_gpio_pin rx_GPIOx rx_gpio_pin baud16
        baud8 st).2.apb1enr = st.apb1enr) ∧
    (cfg.usart_instance = UART4_BASE →
      (usart_config cfg tx_GPIOx tx_gpio_pin rx_GPIOx rx_gpio_pin baud16
        baud8 st).2.apb1enr.testBit 19 = true ∧
      (usart_config cfg tx_GPIOx tx_gpio_pin rx_GPIOx rx_gpio_pin baud16
        baud8 st).2.apb2enr = st.apb2enr) := by
  have hb : ∀ s : USARTHw,
      (usart_config cfg tx_GPIOx tx_gpio_pin rx_GPIOx rx_gpio_pin baud16
        baud8 s).2.apb1enr = (usart_clk_enable cfg s).apb1enr ∧
      (usart_config cfg tx_GPIOx tx_gpio_pin rx_GPIOx rx_gpio_pin baud16
        baud8 s).2.apb2enr = (usart_clk_enable cfg s).apb2enr := by
    intro s
    show ((usart_baud_setup cfg baud16 baud8 _).apb1enr = _) ∧
      ((usart_baud_setup cfg baud16 baud8 _).apb2enr = _)
    rw [usart_baud_setup_id]
    constructor
    · rw [(usart_cr_setup_frame cfg _).1,
        (usart_af_mux_frame cfg tx_gpio_pin rx_gpio_pin _).1,
        (usart_gpio_setup_frame cfg tx_GPIOx tx_gpio_pin rx_GPIOx
          rx_gpio_pin _).1]
    · rw [(usart_cr_setup_frame cfg _).2.1,
        (usart_af_mux_frame cfg tx_gpio_pin rx_gpio_pin _).2.1,
        (usart_gpio_setup_frame cfg tx_GPIOx tx_gpio_pin rx_GPIOx
          rx_gpio_pin _).2.1]
  constructor
  · intro h
    rw [(hb st).1, (hb st).2, usart_clk_enable_usart1 cfg st h]
    constructor
    · simp only [Nat.testBit_or]
      rw [show Nat.testBit (1 <<< 4) 4 = true by decide]
      simp
    · rfl
  · intro h
    rw [(hb st).1, (hb st).2, usart_clk_enable_uart4 cfg st h]
    constructor
    · simp only [Nat.testBit_or]
      rw [show Nat.testBit (1 <<< 19) 19 = true by decide]
      simp
    · rfl

/-- Witness for claim C6, at a concrete USART1 configuration and an all-zero
starting state. -/
theorem usart_config_clk_routing_witness :
    (usart_config ⟨USART1_BASE, 2, 2, 0, 0, 0, 0, 0,
      usart_compat_mode_e_t.USART_COMPATIBLE_MODE_ASYNC, 9600⟩
      GPIOA_BASE 9 GPIOA_BASE 10 0 0
      ⟨0, 0, 0, fun _ => 0, fun _ => 0, fun _ => 0, fun _ => 0, fun _ => 0,
        fun _ => 0, fun _ => 0, fun _ => 0⟩).2.apb2enr.testBit 4 = true :=
  ((usart_config_clk_routing _ GPIOA_BASE 9 GPIOA_BASE 10 0 0 _).1 rfl).1
